import Mathlib

/-! # The MDLE example program (`examples/mdl_sdk/mdle/example_mdle.cpp`)

`main` is a straight line of toolkit calls interrupted by success checks.
The embedding runs `main` against a `World`, which supplies every value the
toolkit and the shared example helpers hand back, and yields the `Run`: the
sequence of calls and checks performed (each tagged with its source line) and
the way the process ends.

Conventions of the embedding.
* The containers filled through accessor calls (`Mdle_data`, `Mdle_user_file`,
  the user file array, the expression list) are records and lists holding what
  `main` stores in them; the status codes those accessor calls return come
  from the `World` and are recorded in the trace.
* Handles that `main` dereferences without testing them are taken to be valid.
* `mi::Sint64` arithmetic is two's complement on 64 bits.
* Whether the allocator serves the request of line 202 is up to the
  environment (`can_allocate`); a request it cannot serve throws.
-/

namespace ExampleMdle

/-! ## Data passed to the toolkit -/

/-- A binary floating point literal `mantissa * 2 ^ exponent`
(`0.25f`, `0.5f` and `0.75f` are exact in this form). -/
structure FloatLit where
  mantissa : Int
  exponent : Int
  deriving DecidableEq, Repr

/-- The literal `0.25f`. -/
def f_0_25 : FloatLit := ⟨1, -2⟩
/-- The literal `0.5f`. -/
def f_0_5 : FloatLit := ⟨1, -1⟩
/-- The literal `0.75f`. -/
def f_0_75 : FloatLit := ⟨3, -2⟩

/-- Values built by the value factory (`create_color`, `create_float`). -/
inductive Value
  | color (r g b : FloatLit)
  | float (v : FloatLit)
  deriving DecidableEq, Repr

/-- Expressions built by the expression factory (`create_constant`). -/
inductive Expression
  | constant (v : Value)
  deriving DecidableEq, Repr

/-- An `IExpression_list`: named expressions in insertion order. -/
abbrev Expression_list := List (String × Expression)

/-- The structure type `Mdle_user_file`. -/
structure Mdle_user_file where
  source_path : String
  target_path : String
  deriving DecidableEq, Repr

/-- The structure type `Mdle_data`, with the members `main` names. -/
structure Mdle_data where
  prototype_name : String
  defaults : Option Expression_list
  thumbnail_path : String
  user_files : List Mdle_user_file
  deriving DecidableEq, Repr

/-- The value handed to `IStructure::set_value`. -/
inductive Field_value
  | expression_list (l : Expression_list)
  | array (l : List Mdle_user_file)
  deriving DecidableEq, Repr

/-- The containers local to `main` that accessor calls write to
(`data2` is the `data` of the inner block at line 215). -/
inductive Obj
  | data
  | defaults
  | user_file
  | user_file_array
  | data2
  deriving DecidableEq, Repr

/-! ## Calls, results, events -/

/-- The calls `main` makes, with the arguments it passes. -/
inductive Call
  | load_and_get_ineuray
  | configure
  | start
  | get_api_component (interface_name : String)
  | get_global_scope
  | create_transaction
  | create_execution_context
  | load_module (module_name : String)
  | print_messages
  | create (type_name : String) (obj : Obj)
  | get_value (obj : Obj) (key : String)
  | set_c_str (obj : Obj) (key : String) (value : String)
  | create_type_factory
  | create_value_factory
  | create_expression_factory
  | create_expression_list
  | create_color (r g b : FloatLit)
  | create_float (v : FloatLit)
  | create_constant (v : Value)
  | add_expression (name : String) (e : Expression)
  | set_value (obj : Obj) (key : String) (value : Field_value)
  | set_element (index : Nat) (value : Mdle_user_file)
  | get_samples_mdl_root
  | get_working_directory
  | export_mdle (file_name : String) (data : Mdle_data)
  | validate_mdle (path : String)
  | mdle_to_db_name (path : String)
  | mdle_to_db_name_with_signature (path : String)
  | access (interface_name : String) (db_name : String)
  | get_user_file (path : String) (file_name : String)
  | get_file_size
  | read (size : Int)
  | commit
  | shutdown
  | unload
  | keep_console_open
  deriving DecidableEq, Repr

/-- What a call hands back. -/
inductive Ret
  | void
  | handle (valid : Bool)
  | code (status : Int)
  | messages_ok (ok : Bool)
  | flag (b : Bool)
  | str (s : String)
  | size (n : Int)
  deriving DecidableEq, Repr

/-- One step of a run of `main`. -/
inductive Event
  | call (line : Nat) (c : Call) (ret : Ret)
  | check (line : Nat) (passed : Bool)
  | scope_exit (line : Nat)
  | release_neuray (line : Nat)
  deriving DecidableEq, Repr

/-- How the process ends. -/
inductive Outcome
  | returned (code : Int)
  | check_abort
  | uncaught_exception
  | undefined_behaviour
  deriving DecidableEq, Repr

/-- The exit code `EXIT_SUCCESS`. -/
def EXIT_SUCCESS : Int := 0

/-- A run of `main`: what was done, in order, and how it ended. -/
structure Run where
  trace : List Event
  outcome : Outcome
  deriving DecidableEq, Repr

/-! ## The environment -/

/-- Everything the toolkit and the helpers of `example_shared.h` report to
`main`. A field `name_n` is the result of the call to `name` at source line
`n`. `samples_mdl_root` and `working_directory` are what `get_samples_mdl_root`
and `get_working_directory` return, `mdle_to_db_name` and
`mdle_to_db_name_with_signature` are the helpers of these names,
`start_success` is the success predicate of `check_start_success`,
`can_allocate n` tells whether the allocator serves a request for `n` chars
(`new char[n]` throws `std::bad_alloc` when it does not), and
`fresh_Mdle_data` and `fresh_Mdle_user_file` are the contents of a structure
of that type just created by `transaction->create`. -/
structure World where
  samples_mdl_root : String
  working_directory : String
  mdle_to_db_name : String → String
  mdle_to_db_name_with_signature : String → String
  start_success : Int → Bool
  can_allocate : Nat → Bool
  fresh_Mdle_data : Mdle_data
  fresh_Mdle_user_file : Mdle_user_file
  neuray_valid_42 : Bool
  start_49 : Int
  load_module_71 : Int
  print_messages_73 : Bool
  add_expression_111 : Int
  add_expression_120 : Int
  set_value_123 : Int
  set_element_158 : Int
  set_value_159 : Int
  export_mdle_164 : Int
  print_messages_165 : Bool
  validate_mdle_172 : Int
  print_messages_173 : Bool
  load_module_176 : Int
  print_messages_177 : Bool
  access_189 : Bool
  print_messages_198 : Bool
  get_file_size_201 : Int
  read_204 : Int
  export_mdle_222 : Int
  print_messages_223 : Bool
  validate_mdle_231 : Int
  print_messages_232 : Bool
  load_module_235 : Int
  print_messages_236 : Bool
  access_245 : Bool
  commit_257 : Int
  shutdown_261 : Int
  unload_265 : Bool

/-! ## The readme buffer (lines 201 to 204) -/

/-- Two's complement wrap of an integer into the range of `mi::Sint64`. -/
def wrap_sint64 (x : Int) : Int :=
  (x + 9223372036854775808) % 18446744073709551616 - 9223372036854775808

/-- The largest `mi::Sint64`. -/
def SINT64_MAX : Int := 9223372036854775807

/-- The smallest `mi::Sint64`. -/
def SINT64_MIN : Int := -9223372036854775808

/-- The array new expression `new char[n]` for a signed `n`: the length of the
buffer, or `none` when the expression throws, because `n` is negative
(`std::bad_array_new_length`) or because the allocator cannot serve `n` chars
(`std::bad_alloc`). -/
def new_char_array (can_allocate : Nat → Bool) (n : Int) : Option Nat :=
  if n < 0 then none
  else if can_allocate n.toNat then some n.toNat
  else none

/-- What lines 202 to 204 do with the reported size. -/
structure Readme_buffer where
  length : Option Nat
  terminator_index : Int
  read_size : Int
  deriving DecidableEq, Repr

/-- Lines 202 to 204: `new char[file_size + 1]`, `content[file_size] = 0`,
`reader->read(content, file_size)`. -/
def readme_buffer (can_allocate : Nat → Bool) (file_size : Int) : Readme_buffer :=
  { length := new_char_array can_allocate (wrap_sint64 (file_size + 1))
    terminator_index := file_size
    read_size := file_size }

/-- Index `i` lies inside a buffer of `length` chars. -/
def in_bounds (length : Nat) (i : Int) : Bool :=
  decide (0 ≤ i) && decide (i < (length : Int))

/-- The buffer exists, the terminator write is inside it, and the bytes asked
of `read` end before the terminator. -/
def index_safe (b : Readme_buffer) : Bool :=
  match b.length with
  | none => false
  | some len =>
    in_bounds len b.terminator_index && decide (0 ≤ b.read_size)
      && decide (b.read_size ≤ b.terminator_index)

/-! ## The checks -/

/-- Modelled from the spec: the check macro `check_success` of
`example_shared.h`, which is not part of the sources at hand. "Every call
result is checked immediately against a success predicate; on failure the
program aborts via an assertion-style check": the check is recorded; when the
tested expression holds the program goes on with `k`, otherwise the process
ends at the check. -/
def check_success (line : Nat) (expr : Bool) (t : List Event)
    (k : List Event → Run) : Run :=
  if expr then k (t ++ [Event.check line true])
  else ⟨t ++ [Event.check line false], Outcome.check_abort⟩

/-- Modelled from the spec: the check macro `check_start_success` of
`example_shared.h`, which is not part of the sources at hand. It is the same
assertion-style check, applied to the status code of `start` through the
success predicate `start_success` of the environment. -/
def check_start_success (line : Nat) (success : Int → Bool) (result : Int)
    (t : List Event) (k : List Event → Run) : Run :=
  check_success line (success result) t k

/-! ## main -/

/-- The function `main` (lines 39 to 269). -/
def main (w : World) : Run :=
  -- Access the MDL SDK
  let t := [Event.call 42 Call.load_and_get_ineuray (Ret.handle w.neuray_valid_42)]
  check_success 43 w.neuray_valid_42 t fun t =>
  -- Configure the MDL SDK
  let t := t ++ [Event.call 46 Call.configure Ret.void]
  -- Start the MDL SDK
  let result := w.start_49
  let t := t ++ [Event.call 49 Call.start (Ret.code result)]
  check_start_success 50 w.start_success result t fun t =>
  -- Access the database and create a transaction.
  let t := t ++
    [ Event.call 55 (Call.get_api_component "IDatabase") (Ret.handle true)
    , Event.call 56 Call.get_global_scope (Ret.handle true)
    , Event.call 57 Call.create_transaction (Ret.handle true)
    , Event.call 60 (Call.get_api_component "IMdl_compiler") (Ret.handle true)
    , Event.call 63 (Call.get_api_component "IMdl_factory") (Ret.handle true)
    , Event.call 66 Call.create_execution_context (Ret.handle true)
    -- Load the module "tutorials".
    , Event.call 71 (Call.load_module "::nvidia::sdk_examples::tutorials")
        (Ret.code w.load_module_71) ]
  check_success 71 (decide (w.load_module_71 ≥ 0)) t fun t =>
  let t := t ++
    [ Event.call 73 Call.print_messages (Ret.messages_ok w.print_messages_73)
    -- get the MDLE api component
    , Event.call 77 (Call.get_api_component "IMdle_api") (Ret.handle true)
    -- setup the export to mdle
    , Event.call 80 (Call.create "Mdle_data" Obj.data) (Ret.handle true) ]
  let data : Mdle_data := w.fresh_Mdle_data
  -- specify the material/function that will become the "main" of the MDLE
  let prototype_name := "mdl::nvidia::sdk_examples::tutorials::example_mod_rough"
  let t := t ++
    [ Event.call 84 (Call.get_value Obj.data "prototype_name") (Ret.handle true)
    , Event.call 85 (Call.set_c_str Obj.data "prototype_name" prototype_name) Ret.void ]
  let data := { data with prototype_name := prototype_name }
  -- change a default values
  let t := t ++
    [ Event.call 92 Call.create_type_factory (Ret.handle true)
    , Event.call 95 Call.create_value_factory (Ret.handle true)
    , Event.call 98 Call.create_expression_factory (Ret.handle true)
    -- create a new set of named parameters
    , Event.call 102 Call.create_expression_list (Ret.handle true) ]
  let defaults : Expression_list := []
  -- set a new tint value
  let tint_value := Value.color f_0_25 f_0_5 f_0_75
  let tint_expr := Expression.constant tint_value
  let t := t ++
    [ Event.call 106 (Call.create_color f_0_25 f_0_5 f_0_75) (Ret.handle true)
    , Event.call 109 (Call.create_constant tint_value) (Ret.handle true)
    , Event.call 111 (Call.add_expression "tint" tint_expr) (Ret.code w.add_expression_111) ]
  let defaults := defaults ++ [("tint", tint_expr)]
  -- set a new roughness value
  let rough_value := Value.float f_0_5
  let rough_expr := Expression.constant rough_value
  let t := t ++
    [ Event.call 115 (Call.create_float f_0_5) (Ret.handle true)
    , Event.call 118 (Call.create_constant rough_value) (Ret.handle true)
    , Event.call 120 (Call.add_expression "roughness" rough_expr)
        (Ret.code w.add_expression_120) ]
  let defaults := defaults ++ [("roughness", rough_expr)]
  -- pass the defaults the Mdle_data struct
  let t := t ++
    [ Event.call 123 (Call.set_value Obj.data "defaults" (Field_value.expression_list defaults))
        (Ret.code w.set_value_123) ]
  let data := { data with defaults := some defaults }
  -- set thumbnail
  let thumbnail_path := w.samples_mdl_root
    ++ "/nvidia/sdk_examples/resources/example_thumbnail.png"
  let t := t ++
    [ Event.call 128 Call.get_samples_mdl_root (Ret.str w.samples_mdl_root)
    , Event.call 131 (Call.get_value Obj.data "thumbnail_path") (Ret.handle true)
    , Event.call 132 (Call.set_c_str Obj.data "thumbnail_path" thumbnail_path) Ret.void ]
  let data := { data with thumbnail_path := thumbnail_path }
  -- add additional files: each user file ...
  let t := t ++
    [ Event.call 140 (Call.create "Mdle_user_file" Obj.user_file) (Ret.handle true) ]
  let user_file : Mdle_user_file := w.fresh_Mdle_user_file
  -- ... is defined by a source path ...
  let readme_path := w.samples_mdl_root
    ++ "/nvidia/sdk_examples/resources/example_readme.txt"
  let t := t ++
    [ Event.call 143 Call.get_samples_mdl_root (Ret.str w.samples_mdl_root)
    , Event.call 147 (Call.get_value Obj.user_file "source_path") (Ret.handle true)
    , Event.call 148 (Call.set_c_str Obj.user_file "source_path" readme_path) Ret.void ]
  let user_file := { user_file with source_path := readme_path }
  -- ... and a target path (inside the MDLE)
  let t := t ++
    [ Event.call 152 (Call.get_value Obj.user_file "target_path") (Ret.handle true)
    , Event.call 153 (Call.set_c_str Obj.user_file "target_path" "readme.txt") Ret.void ]
  let user_file := { user_file with target_path := "readme.txt" }
  -- all user files are passed as array
  let t := t ++
    [ Event.call 157 (Call.create "Mdle_user_file[1]" Obj.user_file_array) (Ret.handle true) ]
  let user_file_array : List Mdle_user_file := [w.fresh_Mdle_user_file]
  let t := t ++
    [ Event.call 158 (Call.set_element 0 user_file) (Ret.code w.set_element_158) ]
  let user_file_array := user_file_array.set 0 user_file
  let t := t ++
    [ Event.call 159 (Call.set_value Obj.data "user_files" (Field_value.array user_file_array))
        (Ret.code w.set_value_159) ]
  let data := { data with user_files := user_file_array }
  -- start the actual export
  let mdle_file_name := "example_material_blue.mdle"
  let t := t ++
    [ Event.call 164 (Call.export_mdle mdle_file_name data) (Ret.code w.export_mdle_164)
    , Event.call 165 Call.print_messages (Ret.messages_ok w.print_messages_165) ]
  check_success 165 w.print_messages_165 t fun t =>
  -- check and load an MDLE
  let mdle_path := w.working_directory ++ "/" ++ mdle_file_name
  let t := t ++
    [ Event.call 169 Call.get_working_directory (Ret.str w.working_directory)
    -- optional: check integrity of a (the created) MDLE file.
    , Event.call 172 (Call.validate_mdle mdle_path) (Ret.code w.validate_mdle_172)
    , Event.call 173 Call.print_messages (Ret.messages_ok w.print_messages_173) ]
  check_success 173 w.print_messages_173 t fun t =>
  -- load the MDLE module
  let t := t ++
    [ Event.call 176 (Call.load_module mdle_path) (Ret.code w.load_module_176)
    , Event.call 177 Call.print_messages (Ret.messages_ok w.print_messages_177) ]
  check_success 177 w.print_messages_177 t fun t =>
  let main_db_name := w.mdle_to_db_name mdle_path
  -- get the main material
  let t := t ++
    [ Event.call 184 (Call.mdle_to_db_name mdle_path) (Ret.str main_db_name)
    , Event.call 189 (Call.access "IMaterial_definition" main_db_name)
        (Ret.handle w.access_189) ]
  check_success 190 w.access_189 t fun t =>
  -- access the user file
  let t := t ++
    [ Event.call 197 (Call.get_user_file mdle_path "readme.txt") (Ret.handle true)
    , Event.call 198 Call.print_messages (Ret.messages_ok w.print_messages_198) ]
  check_success 198 w.print_messages_198 t fun t =>
  -- print the content to the console
  let file_size := w.get_file_size_201
  let t := t ++ [Event.call 201 Call.get_file_size (Ret.size file_size)]
  let content := readme_buffer w.can_allocate file_size
  match content.length with
  | none => ⟨t, Outcome.uncaught_exception⟩
  | some len =>
  if in_bounds len content.terminator_index = false then
    ⟨t, Outcome.undefined_behaviour⟩
  else
  let t := t ++ [Event.call 204 (Call.read content.read_size) (Ret.code w.read_204)]
  -- export a function to a second mdle
  let mdle_file_name2 := "example_function.mdle"
  -- setup the export to mdle
  let t := t ++ [Event.call 215 (Call.create "Mdle_data" Obj.data2) (Ret.handle true)]
  let data2 : Mdle_data := w.fresh_Mdle_data
  -- specify the material/function that will become the "main" of the MDLE
  let prototype_name2 :=
    "mdl::nvidia::sdk_examples::tutorials::example_function(color,float)"
  let t := t ++
    [ Event.call 218 (Call.get_value Obj.data2 "prototype_name") (Ret.handle true)
    , Event.call 219 (Call.set_c_str Obj.data2 "prototype_name" prototype_name2) Ret.void ]
  let data2 := { data2 with prototype_name := prototype_name2 }
  -- start the actual export
  let t := t ++
    [ Event.call 222 (Call.export_mdle mdle_file_name2 data2) (Ret.code w.export_mdle_222)
    , Event.call 223 Call.print_messages (Ret.messages_ok w.print_messages_223) ]
  check_success 223 w.print_messages_223 t fun t =>
  -- check and load the function again
  let mdle_path2 := w.working_directory ++ "/" ++ mdle_file_name2
  let t := t ++
    [ Event.call 228 Call.get_working_directory (Ret.str w.working_directory)
    -- optional: check integrity of a (the created) MDLE file.
    , Event.call 231 (Call.validate_mdle mdle_path2) (Ret.code w.validate_mdle_231)
    , Event.call 232 Call.print_messages (Ret.messages_ok w.print_messages_232) ]
  check_success 232 w.print_messages_232 t fun t =>
  -- load the MDLE module
  let t := t ++
    [ Event.call 235 (Call.load_module mdle_path2) (Ret.code w.load_module_235)
    , Event.call 236 Call.print_messages (Ret.messages_ok w.print_messages_236) ]
  check_success 236 w.print_messages_236 t fun t =>
  let main_db_name2 := w.mdle_to_db_name_with_signature mdle_path2
  -- get the main function
  let t := t ++
    [ Event.call 240 (Call.mdle_to_db_name_with_signature mdle_path2) (Ret.str main_db_name2)
    , Event.call 245 (Call.access "IFunction_definition" main_db_name2)
        (Ret.handle w.access_245) ]
  check_success 246 w.access_245 t fun t =>
  -- All transactions need to get committed.
  let t := t ++
    [ Event.call 257 Call.commit (Ret.code w.commit_257)
    , Event.scope_exit 258
    -- Shut down the MDL SDK
    , Event.call 261 Call.shutdown (Ret.code w.shutdown_261) ]
  check_success 261 (decide (w.shutdown_261 = 0)) t fun t =>
  let t := t ++
    [ Event.release_neuray 262
    -- Unload the MDL SDK
    , Event.call 265 Call.unload (Ret.flag w.unload_265) ]
  check_success 265 w.unload_265 t fun t =>
  let t := t ++ [Event.call 267 Call.keep_console_open Ret.void]
  ⟨t, Outcome.returned EXIT_SUCCESS⟩

/-! ## Reading a run -/

/-- Program order: twice the source line, plus one for the check that tests
the result of a call on the same line. -/
def Event.position : Event → Nat
  | Event.call l _ _ => 2 * l
  | Event.check l _ => 2 * l + 1
  | Event.scope_exit l => 2 * l
  | Event.release_neuray l => 2 * l

/-- The program-order positions of the steps of a run. -/
def positions (r : Run) : List Nat :=
  r.trace.map Event.position

/-- The check made by an event, if it is one: source line and verdict. -/
def Event.check? : Event → Option (Nat × Bool)
  | Event.check l p => some (l, p)
  | _ => none

/-- The checks evaluated in a run, in order. -/
def checks (r : Run) : List (Nat × Bool) :=
  r.trace.filterMap Event.check?

/-- The source lines of the checks of `main`. -/
def check_lines : List Nat :=
  [43, 50, 71, 165, 173, 177, 190, 198, 223, 232, 236, 246, 261, 265]

/-- Every check of `main` is evaluated and passes. -/
def AllChecksPass (r : Run) : Prop :=
  checks r = check_lines.map fun l => (l, true)

instance (r : Run) : Decidable (AllChecksPass r) :=
  inferInstanceAs (Decidable (checks r = _))

/-- Some check of `main` is evaluated and fails. -/
def SomeCheckFails (r : Run) : Prop :=
  ∃ c ∈ checks r, c.2 = false

instance (r : Run) : Decidable (SomeCheckFails r) :=
  inferInstanceAs (Decidable (∃ c ∈ checks r, c.2 = false))

/-- The call made by an event, if it is one. -/
def Event.call? : Event → Option Call
  | Event.call _ c _ => some c
  | _ => none

/-- The calls of a run, in order. -/
def calls (r : Run) : List Call :=
  r.trace.filterMap Event.call?

/-- File name and structure of an `export_mdle` call. -/
def Call.export? : Call → Option (String × Mdle_data)
  | Call.export_mdle n d => some (n, d)
  | _ => none

/-- The `export_mdle` calls of a run: file name and structure passed. -/
def exported (r : Run) : List (String × Mdle_data) :=
  (calls r).filterMap Call.export?

/-- Path of a `validate_mdle` call. -/
def Call.validate? : Call → Option String
  | Call.validate_mdle p => some p
  | _ => none

/-- The paths passed to `validate_mdle`, in order. -/
def validated_paths (r : Run) : List String :=
  (calls r).filterMap Call.validate?

/-- Module name or path of a `load_module` call. -/
def Call.load? : Call → Option String
  | Call.load_module m => some m
  | _ => none

/-- The names and paths passed to `load_module`, in order. -/
def loaded_modules (r : Run) : List String :=
  (calls r).filterMap Call.load?

/-- Path of a `mdle_to_db_name` call. -/
def Call.db_name? : Call → Option String
  | Call.mdle_to_db_name p => some p
  | _ => none

/-- The paths passed to `mdle_to_db_name`, in order. -/
def db_name_paths (r : Run) : List String :=
  (calls r).filterMap Call.db_name?

/-- Archive path and file name of a `get_user_file` call. -/
def Call.user_file? : Call → Option (String × String)
  | Call.get_user_file p f => some (p, f)
  | _ => none

/-- The `get_user_file` calls of a run: archive path and file name. -/
def user_file_requests (r : Run) : List (String × String) :=
  (calls r).filterMap Call.user_file?

/-- The steps in the life of an archive. -/
inductive Archive_step
  | load (module_name : String)
  | export (file_name : String)
  | validate (path : String)
  | access (db_name : String)
  deriving DecidableEq, Repr

/-- The archive step a call stands for, if any. -/
def Call.archive_step? : Call → Option Archive_step
  | Call.load_module m => some (Archive_step.load m)
  | Call.export_mdle n _ => some (Archive_step.export n)
  | Call.validate_mdle p => some (Archive_step.validate p)
  | Call.access _ n => some (Archive_step.access n)
  | _ => none

/-- The loads, exports, validations and database accesses of a run, in order. -/
def archive_steps (r : Run) : List Archive_step :=
  (calls r).filterMap Call.archive_step?

/-- The container a call writes to, if any. -/
def Call.written : Call → Option Obj
  | Call.set_c_str o _ _ => some o
  | Call.set_value o _ _ => some o
  | Call.add_expression _ _ => some Obj.defaults
  | Call.set_element _ _ => some Obj.user_file_array
  | _ => none

/-- The events that follow the first `export_mdle` call. -/
def after_first_export : List Event → List Event
  | [] => []
  | Event.call _ (Call.export_mdle _ _) _ :: rest => rest
  | _ :: rest => after_first_export rest

/-- The containers written to after the first `export_mdle` call, in order. -/
def written_after_first_export (r : Run) : List Obj :=
  (after_first_export r.trace).filterMap fun e => e.call?.bind Call.written

/-- The steps in the life of the toolkit session. -/
inductive Session_step
  | create_transaction
  | export
  | load
  | commit
  | scope_exit
  | shutdown
  | unload
  deriving DecidableEq, Repr

/-- The session step an event stands for, if any. -/
def Event.session_step? : Event → Option Session_step
  | Event.call _ Call.create_transaction _ => some Session_step.create_transaction
  | Event.call _ (Call.export_mdle _ _) _ => some Session_step.export
  | Event.call _ (Call.load_module _) _ => some Session_step.load
  | Event.call _ Call.commit _ => some Session_step.commit
  | Event.scope_exit _ => some Session_step.scope_exit
  | Event.call _ Call.shutdown _ => some Session_step.shutdown
  | Event.call _ Call.unload _ => some Session_step.unload
  | _ => none

/-- The session steps of a run, in order. -/
def session_steps (r : Run) : List Session_step :=
  r.trace.filterMap Event.session_step?

/-- Whose handle a call goes through. -/
inductive Receiver
  | helper
  | neuray
  | scoped
  deriving DecidableEq, Repr

/-- The receiver of a call: a free helper function of `example_shared.h`, the
`neuray` handle declared at line 42, or one of the handles declared inside the
block of lines 53 to 258 (database, scope, transaction, compiler, factories,
context, MDLE api, structures, reader). -/
def Call.receiver : Call → Receiver
  | Call.load_and_get_ineuray => Receiver.helper
  | Call.configure => Receiver.neuray
  | Call.start => Receiver.neuray
  | Call.get_api_component _ => Receiver.neuray
  | Call.shutdown => Receiver.neuray
  | Call.get_samples_mdl_root => Receiver.helper
  | Call.get_working_directory => Receiver.helper
  | Call.mdle_to_db_name _ => Receiver.helper
  | Call.unload => Receiver.helper
  | Call.keep_console_open => Receiver.helper
  | _ => Receiver.scoped

/-- The events that follow the end of the block of lines 53 to 258. -/
def after_scope_exit : List Event → List Event
  | [] => []
  | Event.scope_exit _ :: rest => rest
  | _ :: rest => after_scope_exit rest

/-- The receivers of the calls made after the end of the block. -/
def receivers_after_scope_exit (r : Run) : List Receiver :=
  (after_scope_exit r.trace).filterMap fun e => e.call?.map Call.receiver

/-! ## Which results are checked -/

/-- The source lines of the calls whose own result `main` tests in the very
next step: `load_and_get_ineuray`, `start`, the first `load_module`, the two
`access` calls, `shutdown` and `unload`. -/
def directly_checked : List Nat :=
  [42, 49, 71, 189, 245, 261, 265]

/-- The source lines of the calls after which `main` prints the messages of the
execution context and tests the message state: `export_mdle`, `validate_mdle`,
`load_module` on an archive path and `get_user_file`. -/
def checked_through_messages : List Nat :=
  [164, 172, 176, 197, 222, 231, 235]

/-- The next step is a check, on line `l` or on the line after it. -/
def begins_with_check (l : Nat) : List Event → Bool
  | Event.check l2 _ :: _ => l2 == l || l2 == l + 1
  | _ => false

/-- The next two steps, both on the line after `l`, print the messages and
check the message state. -/
def begins_with_messages_check (l : Nat) : List Event → Bool
  | Event.call l1 Call.print_messages _ :: Event.check l2 _ :: _ =>
    l1 == l + 1 && l2 == l + 1
  | _ => false

/-- Every call on a line of `directly_checked` is followed at once by a check,
and every call on a line of `checked_through_messages` by `print_messages` and
a check. -/
def checked_at_once : List Event → Bool
  | [] => true
  | Event.call l _ _ :: rest =>
    (if directly_checked.contains l then begins_with_check l rest
      else if checked_through_messages.contains l then begins_with_messages_check l rest
      else true) && checked_at_once rest
  | _ :: rest => checked_at_once rest

/-- What the check on a source line tests: the result the environment reports
for the call just before it, under the success predicate `main` applies
(`start`: the predicate of `check_start_success`; the first `load_module`:
`>= 0`; `shutdown`: `== 0`; handles, flags and message states: the value). -/
def tested (w : World) : Nat → Option Bool
  | 43 => some w.neuray_valid_42
  | 50 => some (w.start_success w.start_49)
  | 71 => some (decide (w.load_module_71 ≥ 0))
  | 165 => some w.print_messages_165
  | 173 => some w.print_messages_173
  | 177 => some w.print_messages_177
  | 190 => some w.access_189
  | 198 => some w.print_messages_198
  | 223 => some w.print_messages_223
  | 232 => some w.print_messages_232
  | 236 => some w.print_messages_236
  | 246 => some w.access_245
  | 261 => some (decide (w.shutdown_261 = 0))
  | 265 => some w.unload_265
  | _ => none

/-- The checks of a run follow their calls at once and give the verdict of the
result they test. -/
def CheckedResults (w : World) (r : Run) : Prop :=
  checked_at_once r.trace = true
  ∧ ∀ c ∈ checks r, tested w c.1 = some c.2

/-- Two runs end the same way after the same checks and the same calls. -/
def SameRun (r r2 : Run) : Prop :=
  r.outcome = r2.outcome ∧ checks r = checks r2 ∧ calls r = calls r2

/-- A return value that is a result in the sense of the error handling rule:
a status code, a handle or a message state. -/
def Ret.is_result : Ret → Bool
  | Ret.code _ => true
  | Ret.handle _ => true
  | Ret.messages_ok _ => true
  | Ret.flag _ => true
  | _ => false

/-- A result that reports failure: a negative status code, an invalid handle,
an error among the messages, a false flag. -/
def Ret.reports_failure : Ret → Bool
  | Ret.code s => decide (s < 0)
  | Ret.handle v => !v
  | Ret.messages_ok ok => !ok
  | Ret.flag b => !b
  | _ => false

/-- The next step is a check, or `print_messages` followed by a check. -/
def checked_next : List Event → Bool
  | Event.check _ _ :: _ => true
  | Event.call _ Call.print_messages _ :: Event.check _ _ :: _ => true
  | _ => false

/-- Every call that returns a result is followed at once by a check. -/
def every_result_checked : List Event → Bool
  | [] => true
  | Event.call _ _ ret :: rest =>
    (!ret.is_result || checked_next rest) && every_result_checked rest
  | _ :: rest => every_result_checked rest

/-- The result reported by an event fails. -/
def Event.reports_failure : Event → Bool
  | Event.call _ _ ret => ret.reports_failure
  | _ => false

/-- The error handling rule read over every call of `main`: each result is
checked at once, and a result that reports failure makes the run end in the
abort of a check. -/
def ResultsAllChecked (r : Run) : Prop :=
  every_result_checked r.trace = true
  ∧ ((∃ e ∈ r.trace, e.reports_failure = true) → r.outcome = Outcome.check_abort)

instance (r : Run) : Decidable (ResultsAllChecked r) :=
  inferInstanceAs (Decidable (_ ∧ _))

/-- The environment `w` with other status codes for `add_expression` (lines 111
and 120), `set_value` (123 and 159), `set_element` (158), `read` (204) and
`commit` (257). -/
def World.with_codes (w : World) (a b c d e f g : Int) : World :=
  { w with
    add_expression_111 := a
    add_expression_120 := b
    set_value_123 := c
    set_element_158 := d
    set_value_159 := e
    read_204 := f
    commit_257 := g }

/-! ## Contracts of a run -/

/-- The exit code contract: success exactly when all checks pass, no other
code is ever returned, the abort of a check exactly when a check fails, and
one more way for the run to end: inside the printing of the readme (lines 202
and 203), with no check failing, when that printing is not index safe. -/
def ExitCodeContract (w : World) (r : Run) : Prop :=
  (r.outcome = Outcome.returned EXIT_SUCCESS ↔ AllChecksPass r)
  ∧ (∀ code, r.outcome = Outcome.returned code → code = EXIT_SUCCESS)
  ∧ (r.outcome = Outcome.check_abort ↔ SomeCheckFails r)
  ∧ (r.outcome = Outcome.returned EXIT_SUCCESS
      ∨ r.outcome = Outcome.check_abort
      ∨ ((r.outcome = Outcome.uncaught_exception
            ∨ r.outcome = Outcome.undefined_behaviour)
          ∧ ¬ SomeCheckFails r
          ∧ index_safe (readme_buffer w.can_allocate w.get_file_size_201) = false))

/-- A failing check is the last step of the run, nothing at a later place of
the program is performed, no place is visited twice, and the run ends in the
abort. -/
def FatalAndImmediate (r : Run) : Prop :=
  ∀ l, (l, false) ∈ checks r →
    r.trace.getLast? = some (Event.check l false)
    ∧ (∀ p ∈ positions r, p ≤ 2 * l + 1)
    ∧ (positions r).Pairwise (· < ·)
    ∧ r.outcome = Outcome.check_abort
    ∧ r.outcome ≠ Outcome.returned EXIT_SUCCESS

/-- Names and paths of the two archives in a run where all checks pass. -/
def NamesAndPaths (w : World) (r : Run) : Prop :=
  AllChecksPass r →
    (exported r).map Prod.fst = ["example_material_blue.mdle", "example_function.mdle"]
    ∧ validated_paths r =
        [ w.working_directory ++ "/" ++ "example_material_blue.mdle"
        , w.working_directory ++ "/" ++ "example_function.mdle" ]
    ∧ loaded_modules r =
        [ "::nvidia::sdk_examples::tutorials"
        , w.working_directory ++ "/" ++ "example_material_blue.mdle"
        , w.working_directory ++ "/" ++ "example_function.mdle" ]

/-- Order of export, validation, reload and access in a run where all checks
pass. -/
def ArchiveOrder (w : World) (r : Run) : Prop :=
  AllChecksPass r →
    archive_steps r =
      [ Archive_step.load "::nvidia::sdk_examples::tutorials"
      , Archive_step.export "example_material_blue.mdle"
      , Archive_step.validate (w.working_directory ++ "/" ++ "example_material_blue.mdle")
      , Archive_step.load (w.working_directory ++ "/" ++ "example_material_blue.mdle")
      , Archive_step.access
          (w.mdle_to_db_name (w.working_directory ++ "/" ++ "example_material_blue.mdle"))
      , Archive_step.export "example_function.mdle"
      , Archive_step.validate (w.working_directory ++ "/" ++ "example_function.mdle")
      , Archive_step.load (w.working_directory ++ "/" ++ "example_function.mdle")
      , Archive_step.access
          (w.mdle_to_db_name_with_signature
            (w.working_directory ++ "/" ++ "example_function.mdle")) ]

/-- Order of transaction, commit, end of scope, shutdown and unload in a run
where all checks pass. -/
def SessionOrder (r : Run) : Prop :=
  AllChecksPass r →
    session_steps r =
      [ Session_step.create_transaction, Session_step.load, Session_step.export
      , Session_step.load, Session_step.export, Session_step.load, Session_step.commit
      , Session_step.scope_exit, Session_step.shutdown, Session_step.unload ]
    ∧ receivers_after_scope_exit r = [Receiver.neuray, Receiver.helper, Receiver.helper]

/-- The structure `main` has built when it reaches the first export
(lines 80 to 159). -/
def first_export_data (w : World) : Mdle_data :=
  { prototype_name := "mdl::nvidia::sdk_examples::tutorials::example_mod_rough"
    defaults := some
      [ ("tint", Expression.constant (Value.color f_0_25 f_0_5 f_0_75))
      , ("roughness", Expression.constant (Value.float f_0_5)) ]
    thumbnail_path := w.samples_mdl_root
      ++ "/nvidia/sdk_examples/resources/example_thumbnail.png"
    user_files :=
      [ { source_path := w.samples_mdl_root
            ++ "/nvidia/sdk_examples/resources/example_readme.txt"
          target_path := "readme.txt" } ] }

/-- The first export of a run, if the run gets there. -/
def FirstExport (w : World) (r : Run) : Prop :=
  (exported r).head? = none
  ∨ (exported r).head? = some ("example_material_blue.mdle", first_export_data w)

/-- The second export of a run, if the run gets there, and the containers
written to after the first export. -/
def SecondExport (w : World) (r : Run) : Prop :=
  ((exported r)[1]? = none
    ∨ (exported r)[1]? = some
        ( "example_function.mdle"
        , { w.fresh_Mdle_data with
            prototype_name :=
              "mdl::nvidia::sdk_examples::tutorials::example_function(color,float)" } ))
  ∧ (written_after_first_export r = [] ∨ written_after_first_export r = [Obj.data2])

/-- The request for the user file, if the run gets there, next to the other
uses of the path of the first archive. -/
def UserFileRequest (w : World) (r : Run) : Prop :=
  user_file_requests r = []
  ∨ (user_file_requests r =
        [(w.working_directory ++ "/" ++ "example_material_blue.mdle", "readme.txt")]
      ∧ (exported r).head? = some ("example_material_blue.mdle", first_export_data w)
      ∧ (validated_paths r).head? =
          some (w.working_directory ++ "/" ++ "example_material_blue.mdle")
      ∧ (loaded_modules r)[1]? =
          some (w.working_directory ++ "/" ++ "example_material_blue.mdle")
      ∧ db_name_paths r = [w.working_directory ++ "/" ++ "example_material_blue.mdle"])

/-- The index safety of printing the readme as first read off lines 201 to
204: for a size that is not negative the buffer has one char more than the
size and the accesses are safe, for a negative size the terminator index is
outside the buffer. -/
def ReadmeSafeFromZero (can_allocate : Nat → Bool) (file_size : Int) : Prop :=
  (0 ≤ file_size →
    (readme_buffer can_allocate file_size).length = some (file_size + 1).toNat
    ∧ index_safe (readme_buffer can_allocate file_size) = true)
  ∧ (file_size < 0 → index_safe (readme_buffer can_allocate file_size) = false)

instance (can_allocate : Nat → Bool) (file_size : Int) :
    Decidable (ReadmeSafeFromZero can_allocate file_size) :=
  inferInstanceAs (Decidable (_ ∧ _))

/-! ## Sample environments -/

/-- An environment in which every call succeeds, the readme has 12 bytes and
the allocator serves requests of up to `2^40` chars. -/
def world_ok : World :=
  { samples_mdl_root := "/sdk/examples/mdl"
    working_directory := "/tmp/work"
    mdle_to_db_name := fun p => "mdle::" ++ p ++ "::main"
    mdle_to_db_name_with_signature := fun p => "mdle::" ++ p ++ "::main(color,float)"
    start_success := fun r => r == 0
    can_allocate := fun n => decide (n ≤ 1099511627776)
    fresh_Mdle_data := ⟨"", none, "", []⟩
    fresh_Mdle_user_file := ⟨"", ""⟩
    neuray_valid_42 := true
    start_49 := 0
    load_module_71 := 0
    print_messages_73 := true
    add_expression_111 := 0
    add_expression_120 := 0
    set_value_123 := 0
    set_element_158 := 0
    set_value_159 := 0
    export_mdle_164 := 0
    print_messages_165 := true
    validate_mdle_172 := 0
    print_messages_173 := true
    load_module_176 := 0
    print_messages_177 := true
    access_189 := true
    print_messages_198 := true
    get_file_size_201 := 12
    read_204 := 12
    export_mdle_222 := 0
    print_messages_223 := true
    validate_mdle_231 := 0
    print_messages_232 := true
    load_module_235 := 0
    print_messages_236 := true
    access_245 := true
    commit_257 := 0
    shutdown_261 := 0
    unload_265 := true }

/-- The environment `world_ok` in which `start` reports failure. -/
def world_start_fails : World :=
  { world_ok with start_49 := -1 }

/-- The environment `world_ok` in which `add_expression`, `set_value`,
`set_element`, `read` and `commit` all report failure. -/
def world_codes_fail : World :=
  world_ok.with_codes (-1) (-1) (-1) (-1) (-1) (-1) (-1)

/-! # Theorems -/

/-! ## Reasoning about the checks -/

/-- Case analysis on a check: it either ends the run or hands over to the
rest of the program. -/
theorem check_success_rule (P : Run → Prop) (l : Nat) (e : Bool) (t : List Event)
    (k : List Event → Run)
    (hfail : e = false → P ⟨t ++ [Event.check l false], Outcome.check_abort⟩)
    (hpass : e = true → P (k (t ++ [Event.check l true]))) :
    P (check_success l e t k) := by
  unfold check_success
  cases e
  · simpa using hfail rfl
  · simpa using hpass rfl

set_option maxHeartbeats 4000000 in
/-- Every run of `main` meets the exit code contract. -/
theorem main_exit_code (w : World) (Q : Run → Prop)
    (hQ : ∀ r, ExitCodeContract w r → Q r) : Q (main w) := by
  unfold main check_start_success
  simp only []
  iterate 8 (refine check_success_rule Q _ _ _ _ (fun _ => ?_) (fun _ => ?_); rotate_left)
  split; rotate_left
  split; rotate_left
  iterate 6 (refine check_success_rule Q _ _ _ _ (fun _ => ?_) (fun _ => ?_); rotate_left)
  all_goals
    apply hQ
    simp only [ExitCodeContract, AllChecksPass, SomeCheckFails, checks, check_lines,
      List.append_assoc, List.cons_append, List.nil_append, List.filterMap_cons,
      List.filterMap_nil, Event.check?, List.map_cons, List.map_nil]
    refine ⟨by decide, ?_, by decide, ?_⟩
    · intro code h
      first
        | (cases h; rfl)
        | cases h
    · first
        | exact Or.inl (by trivial)
        | exact Or.inr (Or.inl (by trivial))
        | (refine Or.inr (Or.inr ⟨?_, by decide, ?_⟩)
           · first
               | exact Or.inl (by trivial)
               | exact Or.inr (by trivial)
           · simp only [index_safe, *, Bool.false_and])

set_option maxHeartbeats 4000000 in
/-- Every run of `main` ends at its first failing check. -/
theorem main_fatal (w : World) (Q : Run → Prop)
    (hQ : ∀ r, FatalAndImmediate r → Q r) : Q (main w) := by
  unfold main check_start_success
  simp only []
  iterate 8 (refine check_success_rule Q _ _ _ _ (fun _ => ?_) (fun _ => ?_); rotate_left)
  split; rotate_left
  split; rotate_left
  iterate 6 (refine check_success_rule Q _ _ _ _ (fun _ => ?_) (fun _ => ?_); rotate_left)
  all_goals
    apply hQ
    intro l
    simp only [checks, positions, List.append_assoc, List.cons_append, List.nil_append,
      List.filterMap_cons, List.filterMap_nil, Event.check?, List.map_cons, List.map_nil,
      Event.position]
    intro hl
    simp only [List.mem_cons, List.mem_singleton, List.mem_nil_iff, Prod.mk.injEq,
      Bool.false_eq_true, and_false, and_true, or_false, false_or] at hl
    all_goals
      subst hl
      refine ⟨rfl, by decide, ?_, trivial, by decide⟩
      rw [← List.chain'_iff_pairwise]
      simp only [List.chain'_cons, List.chain'_singleton, and_true]
      omega

set_option maxHeartbeats 4000000 in
/-- Every run of `main` names and locates the archives as `NamesAndPaths` says. -/
theorem main_names_and_paths (w : World) (Q : Run → Prop)
    (hQ : ∀ r, NamesAndPaths w r → Q r) : Q (main w) := by
  unfold main check_start_success
  simp only []
  iterate 8 (refine check_success_rule Q _ _ _ _ (fun _ => ?_) (fun _ => ?_); rotate_left)
  split; rotate_left
  split; rotate_left
  iterate 6 (refine check_success_rule Q _ _ _ _ (fun _ => ?_) (fun _ => ?_); rotate_left)
  all_goals
    apply hQ
    simp only [NamesAndPaths, AllChecksPass, checks, check_lines, List.append_assoc,
      List.cons_append, List.nil_append, List.filterMap_cons, List.filterMap_nil,
      Event.check?, List.map_cons, List.map_nil]
    intro h
    first
      | (exfalso; revert h; decide)
      | exact ⟨rfl, rfl, rfl⟩

set_option maxHeartbeats 4000000 in
/-- Every run of `main` orders the archive steps as `ArchiveOrder` says. -/
theorem main_archive_order (w : World) (Q : Run → Prop)
    (hQ : ∀ r, ArchiveOrder w r → Q r) : Q (main w) := by
  unfold main check_start_success
  simp only []
  iterate 8 (refine check_success_rule Q _ _ _ _ (fun _ => ?_) (fun _ => ?_); rotate_left)
  split; rotate_left
  split; rotate_left
  iterate 6 (refine check_success_rule Q _ _ _ _ (fun _ => ?_) (fun _ => ?_); rotate_left)
  all_goals
    apply hQ
    simp only [ArchiveOrder, AllChecksPass, checks, check_lines, List.append_assoc,
      List.cons_append, List.nil_append, List.filterMap_cons, List.filterMap_nil,
      Event.check?, List.map_cons, List.map_nil]
    intro h
    first
      | (exfalso; revert h; decide)
      | rfl

set_option maxHeartbeats 4000000 in
/-- Every run of `main` orders the session steps as `SessionOrder` says. -/
theorem main_session_order (w : World) (Q : Run → Prop)
    (hQ : ∀ r, SessionOrder r → Q r) : Q (main w) := by
  unfold main check_start_success
  simp only []
  iterate 8 (refine check_success_rule Q _ _ _ _ (fun _ => ?_) (fun _ => ?_); rotate_left)
  split; rotate_left
  split; rotate_left
  iterate 6 (refine check_success_rule Q _ _ _ _ (fun _ => ?_) (fun _ => ?_); rotate_left)
  all_goals
    apply hQ
    simp only [SessionOrder, AllChecksPass, checks, check_lines, List.append_assoc,
      List.cons_append, List.nil_append, List.filterMap_cons, List.filterMap_nil,
      Event.check?, List.map_cons, List.map_nil]
    intro h
    first
      | (exfalso; revert h; decide)
      | exact ⟨rfl, rfl⟩

set_option maxHeartbeats 4000000 in
/-- Every run of `main` exports first what `FirstExport` says. -/
theorem main_first_export (w : World) (Q : Run → Prop)
    (hQ : ∀ r, FirstExport w r → Q r) : Q (main w) := by
  unfold main check_start_success
  simp only []
  iterate 8 (refine check_success_rule Q _ _ _ _ (fun _ => ?_) (fun _ => ?_); rotate_left)
  split; rotate_left
  split; rotate_left
  iterate 6 (refine check_success_rule Q _ _ _ _ (fun _ => ?_) (fun _ => ?_); rotate_left)
  all_goals
    apply hQ
    simp only [List.append_assoc, List.cons_append, List.nil_append]
  · exact Or.inr rfl
  iterate 3 exact Or.inl rfl
  all_goals exact Or.inr rfl

set_option maxHeartbeats 4000000 in
/-- Every run of `main` exports second what `SecondExport` says. -/
theorem main_second_export (w : World) (Q : Run → Prop)
    (hQ : ∀ r, SecondExport w r → Q r) : Q (main w) := by
  unfold main check_start_success
  simp only []
  iterate 8 (refine check_success_rule Q _ _ _ _ (fun _ => ?_) (fun _ => ?_); rotate_left)
  split; rotate_left
  split; rotate_left
  iterate 6 (refine check_success_rule Q _ _ _ _ (fun _ => ?_) (fun _ => ?_); rotate_left)
  all_goals
    apply hQ
    simp only [List.append_assoc, List.cons_append, List.nil_append]
  · exact ⟨Or.inr rfl, Or.inr rfl⟩
  iterate 10 exact ⟨Or.inl rfl, Or.inl rfl⟩
  all_goals exact ⟨Or.inr rfl, Or.inr rfl⟩

set_option maxHeartbeats 4000000 in
/-- Every run of `main` requests the user file as `UserFileRequest` says. -/
theorem main_user_file_request (w : World) (Q : Run → Prop)
    (hQ : ∀ r, UserFileRequest w r → Q r) : Q (main w) := by
  unfold main check_start_success
  simp only []
  iterate 8 (refine check_success_rule Q _ _ _ _ (fun _ => ?_) (fun _ => ?_); rotate_left)
  split; rotate_left
  split; rotate_left
  iterate 6 (refine check_success_rule Q _ _ _ _ (fun _ => ?_) (fun _ => ?_); rotate_left)
  all_goals
    apply hQ
    simp only [List.append_assoc, List.cons_append, List.nil_append]
  · exact Or.inr ⟨rfl, rfl, rfl, rfl, rfl⟩
  iterate 7 exact Or.inl rfl
  all_goals exact Or.inr ⟨rfl, rfl, rfl, rfl, rfl⟩

set_option maxHeartbeats 4000000 in
/-- Every run of `main` checks the results as `CheckedResults` says. -/
theorem main_checked_results (w : World) (Q : Run → Prop)
    (hQ : ∀ r, CheckedResults w r → Q r) : Q (main w) := by
  unfold main check_start_success
  simp only []
  iterate 8 (refine check_success_rule Q _ _ _ _ (fun _ => ?_) (fun _ => ?_); rotate_left)
  split; rotate_left
  split; rotate_left
  iterate 6 (refine check_success_rule Q _ _ _ _ (fun _ => ?_) (fun _ => ?_); rotate_left)
  all_goals
    apply hQ
    simp only [List.append_assoc, List.cons_append, List.nil_append]
    refine ⟨rfl, ?_⟩
    simp only [checks, List.filterMap_cons, List.filterMap_nil, Event.check?,
      List.forall_mem_cons, List.not_mem_nil, false_implies, implies_true, and_true,
      tested, *]
    try trivial

/-- Case analysis on the same check in two runs. -/
theorem check_success_rule2 (R : Run → Run → Prop) (l : Nat) (e : Bool)
    (t t2 : List Event) (k k2 : List Event → Run)
    (hfail : e = false →
      R ⟨t ++ [Event.check l false], Outcome.check_abort⟩
        ⟨t2 ++ [Event.check l false], Outcome.check_abort⟩)
    (hpass : e = true → R (k (t ++ [Event.check l true])) (k2 (t2 ++ [Event.check l true]))) :
    R (check_success l e t k) (check_success l e t2 k2) := by
  unfold check_success
  cases e
  · simpa using hfail rfl
  · simpa using hpass rfl

set_option maxHeartbeats 4000000 in
/-- The status codes of `add_expression`, `set_value`, `set_element`, `read`
and `commit` do not change the run. -/
theorem main_same_run (w : World) (a b c d e f g : Int) (Q : Run → Run → Prop)
    (hQ : ∀ r r2, SameRun r r2 → Q r r2) :
    Q (main (w.with_codes a b c d e f g)) (main w) := by
  unfold main check_start_success
  simp only [World.with_codes]
  iterate 8 (refine check_success_rule2 Q _ _ _ _ _ _ (fun _ => ?_) (fun _ => ?_); rotate_left)
  split; rotate_left
  split; rotate_left
  iterate 6 (refine check_success_rule2 Q _ _ _ _ _ _ (fun _ => ?_) (fun _ => ?_); rotate_left)
  all_goals
    apply hQ
    simp only [List.append_assoc, List.cons_append, List.nil_append]
    exact ⟨rfl, rfl, rfl⟩

/-! ## The claims -/

/-- Claim C1, as stated, fails: in the environment `world_codes_fail` the
calls `add_expression`, `set_value`, `set_element`, `read` and `commit` report
failure, no check examines these results, and `main` returns `EXIT_SUCCESS`. -/
theorem C1_unchecked_results_counterexample :
    ¬ ResultsAllChecked (main world_codes_fail)
    ∧ every_result_checked (main world_codes_fail).trace = false
    ∧ Event.call 257 Call.commit (Ret.code (-1)) ∈ (main world_codes_fail).trace
    ∧ Event.call 204 (Call.read 12) (Ret.code (-1)) ∈ (main world_codes_fail).trace
    ∧ (main world_codes_fail).outcome = Outcome.returned EXIT_SUCCESS := by
  decide

/-- Claim C1, amended: the results `main` checks are those of
`load_and_get_ineuray`, `start`, the first `load_module`, the two `access`
calls, `shutdown` and `unload` (tested in the very next step) and the message
state after `export_mdle`, `validate_mdle`, `load_module` on an archive path
and `get_user_file` (printed and tested in the next two steps); each check
gives the verdict of the result it tests, and the run ends in the abort of a
check exactly when a check fails. The status codes of `add_expression`,
`set_value`, `set_element`, `read` and `commit` are discarded: whatever they
are, the run ends the same way after the same checks and the same calls. -/
theorem C1_checked_results_abort (w : World) (a b c d e f g : Int) :
    checked_at_once (main w).trace = true
    ∧ (∀ x ∈ checks (main w), tested w x.1 = some x.2)
    ∧ ((main w).outcome = Outcome.check_abort ↔ SomeCheckFails (main w))
    ∧ SameRun (main (w.with_codes a b c d e f g)) (main w) :=
  ⟨(main_checked_results w (CheckedResults w) (fun _ x => x)).1,
   (main_checked_results w (CheckedResults w) (fun _ x => x)).2,
   (main_exit_code w (ExitCodeContract w) (fun _ x => x)).2.2.1,
   main_same_run w a b c d e f g SameRun (fun _ _ x => x)⟩

/-- Claim C1, amended, at the environment in which `start` fails. -/
theorem C1_checked_results_abort_witness :
    checked_at_once (main world_start_fails).trace = true
    ∧ (∀ x ∈ checks (main world_start_fails), tested world_start_fails x.1 = some x.2)
    ∧ ((main world_start_fails).outcome = Outcome.check_abort
        ↔ SomeCheckFails (main world_start_fails))
    ∧ SameRun (main (world_start_fails.with_codes (-1) (-1) (-1) (-1) (-1) (-1) (-1)))
        (main world_start_fails) :=
  C1_checked_results_abort world_start_fails (-1) (-1) (-1) (-1) (-1) (-1) (-1)

/-- Claim C2: failure is fatal and immediate. When a check of `main` fails, that
check is the last step of the run, every step performed lies at or before the
place of the check in the program (so no later `export_mdle`, `validate_mdle`,
`load_module`, `get_user_file`, `commit` or `shutdown` is performed), the
places visited increase strictly (no step is retried), and the run ends in the
abort, not in the return of `EXIT_SUCCESS`. -/
theorem C2_failure_is_fatal_and_immediate (w : World) (l : Nat)
    (h : (l, false) ∈ checks (main w)) :
    (main w).trace.getLast? = some (Event.check l false)
    ∧ (∀ p ∈ positions (main w), p ≤ 2 * l + 1)
    ∧ (positions (main w)).Pairwise (· < ·)
    ∧ (main w).outcome = Outcome.check_abort
    ∧ (main w).outcome ≠ Outcome.returned EXIT_SUCCESS :=
  main_fatal w FatalAndImmediate (fun _ x => x) l h

/-- Claim C2 at the environment in which `start` fails: the check at line 50
fails and ends the run. -/
theorem C2_failure_is_fatal_and_immediate_witness :
    (50, false) ∈ checks (main world_start_fails)
    ∧ (main world_start_fails).trace.getLast? = some (Event.check 50 false)
    ∧ (main world_start_fails).outcome = Outcome.check_abort :=
  ⟨by decide,
   (C2_failure_is_fatal_and_immediate world_start_fails 50 (by decide)).1,
   (C2_failure_is_fatal_and_immediate world_start_fails 50 (by decide)).2.2.2.1⟩


/-- Claim C3: in every run of `main` in which all checks pass, `export_mdle` is
called exactly twice, first with the file name `example_material_blue.mdle` and
then with `example_function.mdle`, two distinct names that do not start with
a slash; the paths validated are the working directory, a slash and these same
names, in this order, and so are the paths loaded after the module
`tutorials`. -/
theorem C3_exported_names_and_paths (w : World) (h : AllChecksPass (main w)) :
    (exported (main w)).map Prod.fst
      = ["example_material_blue.mdle", "example_function.mdle"]
    ∧ validated_paths (main w) =
        [ w.working_directory ++ "/" ++ "example_material_blue.mdle"
        , w.working_directory ++ "/" ++ "example_function.mdle" ]
    ∧ loaded_modules (main w) =
        [ "::nvidia::sdk_examples::tutorials"
        , w.working_directory ++ "/" ++ "example_material_blue.mdle"
        , w.working_directory ++ "/" ++ "example_function.mdle" ]
    ∧ ((exported (main w)).map Prod.fst).Nodup
    ∧ ∀ n ∈ (exported (main w)).map Prod.fst, n.front ≠ '/' := by
  obtain ⟨h1, h2, h3⟩ := main_names_and_paths w (NamesAndPaths w) (fun _ x => x) h
  refine ⟨h1, h2, h3, ?_, ?_⟩
  · rw [h1]
    decide
  · rw [h1]
    decide

/-- Claim C3 at the environment `world_ok`, whose working directory is
`/tmp/work`. -/
theorem C3_exported_names_and_paths_witness :
    AllChecksPass (main world_ok)
    ∧ validated_paths (main world_ok) =
        [ world_ok.working_directory ++ "/" ++ "example_material_blue.mdle"
        , world_ok.working_directory ++ "/" ++ "example_function.mdle" ] :=
  ⟨by decide, (C3_exported_names_and_paths world_ok (by decide)).2.1⟩

/-- Claim C4: in every run of `main` in which all checks pass, each archive is
first written by `export_mdle`, then validated and reloaded on its path, once
each, and its main definition is accessed in the database after the reload:
the loads, exports, validations and accesses of the run are exactly the load of
`tutorials`, then export, validation, load and access for the first archive,
then export, validation, load and access for the second. -/
theorem C4_export_then_validate_reload_access (w : World)
    (h : AllChecksPass (main w)) :
    archive_steps (main w) =
      [ Archive_step.load "::nvidia::sdk_examples::tutorials"
      , Archive_step.export "example_material_blue.mdle"
      , Archive_step.validate (w.working_directory ++ "/" ++ "example_material_blue.mdle")
      , Archive_step.load (w.working_directory ++ "/" ++ "example_material_blue.mdle")
      , Archive_step.access
          (w.mdle_to_db_name (w.working_directory ++ "/" ++ "example_material_blue.mdle"))
      , Archive_step.export "example_function.mdle"
      , Archive_step.validate (w.working_directory ++ "/" ++ "example_function.mdle")
      , Archive_step.load (w.working_directory ++ "/" ++ "example_function.mdle")
      , Archive_step.access
          (w.mdle_to_db_name_with_signature
            (w.working_directory ++ "/" ++ "example_function.mdle")) ] :=
  main_archive_order w (ArchiveOrder w) (fun _ x => x) h

/-- Claim C4 at the environment `world_ok`: nine archive steps. -/
theorem C4_export_then_validate_reload_access_witness :
    AllChecksPass (main world_ok) ∧ (archive_steps (main world_ok)).length = 9 :=
  ⟨by decide,
   by rw [C4_export_then_validate_reload_access world_ok (by decide)]; rfl⟩

/-- Claim C5: the structure passed to the first `export_mdle` call, which
writes `example_material_blue.mdle`, has the prototype name
`mdl::nvidia::sdk_examples::tutorials::example_mod_rough`, a defaults list of
exactly two entries, `tint` (a constant colour) then `roughness` (a constant
float), the thumbnail path made of the samples root and
`/nvidia/sdk_examples/resources/example_thumbnail.png`, and exactly one user
file, from the samples root and
`/nvidia/sdk_examples/resources/example_readme.txt` to `readme.txt`. -/
theorem C5_first_export_data (w : World) (n : String) (d : Mdle_data)
    (h : (exported (main w)).head? = some (n, d)) :
    n = "example_material_blue.mdle"
    ∧ d.prototype_name = "mdl::nvidia::sdk_examples::tutorials::example_mod_rough"
    ∧ d.defaults = some
        [ ("tint", Expression.constant (Value.color f_0_25 f_0_5 f_0_75))
        , ("roughness", Expression.constant (Value.float f_0_5)) ]
    ∧ d.thumbnail_path =
        w.samples_mdl_root ++ "/nvidia/sdk_examples/resources/example_thumbnail.png"
    ∧ d.user_files =
        [ { source_path :=
              w.samples_mdl_root ++ "/nvidia/sdk_examples/resources/example_readme.txt"
            target_path := "readme.txt" } ] := by
  rcases main_first_export w (FirstExport w) (fun _ x => x) with h0 | h1
  · rw [h0] at h
    cases h
  · rw [h1] at h
    cases h
    exact ⟨rfl, rfl, rfl, rfl, rfl⟩

/-- Claim C5 at the environment `world_ok`, where the first export is made. -/
theorem C5_first_export_data_witness :
    (exported (main world_ok)).head?
        = some ("example_material_blue.mdle", first_export_data world_ok)
    ∧ (first_export_data world_ok).prototype_name
        = "mdl::nvidia::sdk_examples::tutorials::example_mod_rough" :=
  ⟨by decide,
   (C5_first_export_data world_ok "example_material_blue.mdle"
      (first_export_data world_ok) (by decide)).2.1⟩


/-- Claim C7: in every run of `main` in which all checks pass, one transaction
is created and it is committed once, after both exports and both reloads; the
commit and the end of the block that holds the database, scope, transaction,
compiler, factory, context and MDLE handles come before `shutdown`, which comes
before `unload`; and after the end of that block no call goes through one of
its handles (the calls left are `shutdown` on `neuray` and the helpers `unload`
and `keep_console_open`). -/
theorem C7_commit_scope_shutdown_unload (w : World) (h : AllChecksPass (main w)) :
    session_steps (main w) =
      [ Session_step.create_transaction, Session_step.load, Session_step.export
      , Session_step.load, Session_step.export, Session_step.load, Session_step.commit
      , Session_step.scope_exit, Session_step.shutdown, Session_step.unload ]
    ∧ (session_steps (main w)).count Session_step.create_transaction = 1
    ∧ (session_steps (main w)).count Session_step.commit = 1
    ∧ receivers_after_scope_exit (main w)
        = [Receiver.neuray, Receiver.helper, Receiver.helper]
    ∧ ∀ x ∈ receivers_after_scope_exit (main w), x ≠ Receiver.scoped := by
  obtain ⟨h1, h2⟩ := main_session_order w SessionOrder (fun _ x => x) h
  refine ⟨h1, ?_, ?_, h2, ?_⟩
  · rw [h1]
    decide
  · rw [h1]
    decide
  · rw [h2]
    decide

/-- Claim C7 at the environment `world_ok`: one commit. -/
theorem C7_commit_scope_shutdown_unload_witness :
    AllChecksPass (main world_ok)
    ∧ (session_steps (main world_ok)).count Session_step.commit = 1 :=
  ⟨by decide, (C7_commit_scope_shutdown_unload world_ok (by decide)).2.2.1⟩

/-- Claim C8, as stated, fails at sizes that are not negative. At the largest
`mi::Sint64`, `file_size + 1` wraps to a negative number and no buffer is
allocated, whatever the allocator can serve. At `2^62`, with the allocator of
`world_ok`, the request for `2^62 + 1` chars is not served and no buffer is
allocated either. -/
theorem C8_readme_buffer_counterexample :
    ¬ ReadmeSafeFromZero (fun _ => true) SINT64_MAX
    ∧ 0 ≤ SINT64_MAX
    ∧ wrap_sint64 (SINT64_MAX + 1) = SINT64_MIN
    ∧ (readme_buffer (fun _ => true) SINT64_MAX).length = none
    ∧ index_safe (readme_buffer (fun _ => true) SINT64_MAX) = false
    ∧ ¬ ReadmeSafeFromZero world_ok.can_allocate 4611686018427387904
    ∧ (readme_buffer world_ok.can_allocate 4611686018427387904).length = none := by
  decide

/-- Claim C8, amended: for a reported size in the range of `mi::Sint64`,
printing the readme is index safe exactly when `0 ≤ file_size < 2^63 - 1` and
the allocator serves the request for `file_size + 1` chars. In that case the
buffer has `file_size + 1` chars, the terminator write at index `file_size` is
inside it, and `read` is asked for `file_size` bytes, which end before the
terminator. Whenever a buffer is allocated it has `file_size + 1` chars. For a
negative size the terminator index is outside every buffer that is
allocated. -/
theorem C8_readme_buffer_index_safety (can_allocate : Nat → Bool) (file_size : Int)
    (hmin : SINT64_MIN ≤ file_size) (hmax : file_size ≤ SINT64_MAX) :
    (index_safe (readme_buffer can_allocate file_size) = true
      ↔ 0 ≤ file_size ∧ file_size < SINT64_MAX
        ∧ can_allocate (file_size + 1).toNat = true)
    ∧ (0 ≤ file_size → file_size < SINT64_MAX →
        can_allocate (file_size + 1).toNat = true →
        (readme_buffer can_allocate file_size).length = some (file_size + 1).toNat
        ∧ in_bounds (file_size + 1).toNat
            (readme_buffer can_allocate file_size).terminator_index = true
        ∧ (readme_buffer can_allocate file_size).terminator_index = file_size
        ∧ 0 ≤ (readme_buffer can_allocate file_size).read_size
        ∧ (readme_buffer can_allocate file_size).read_size ≤ file_size)
    ∧ (∀ len, (readme_buffer can_allocate file_size).length = some len →
        (len : Int) = file_size + 1 ∧ can_allocate len = true)
    ∧ (file_size < 0 → ∀ len, (readme_buffer can_allocate file_size).length = some len →
        in_bounds len (readme_buffer can_allocate file_size).terminator_index = false) := by
  unfold SINT64_MIN at hmin
  unfold SINT64_MAX at hmax
  have hlen : ∀ len, (readme_buffer can_allocate file_size).length = some len →
      (len : Int) = file_size + 1 ∧ can_allocate len = true
      ∧ file_size < 9223372036854775807 := by
    intro len h
    unfold readme_buffer new_char_array wrap_sint64 at h
    simp only [] at h
    split at h
    · cases h
    · rename_i hn
      split at h
      · rename_i hc
        simp only [Option.some.injEq] at h
        subst h
        refine ⟨?_, hc, ?_⟩
        · omega
        · omega
      · cases h
  have hsome : 0 ≤ file_size → file_size < 9223372036854775807 →
      can_allocate (file_size + 1).toNat = true →
      (readme_buffer can_allocate file_size).length = some (file_size + 1).toNat := by
    intro h0 h1 hc
    unfold readme_buffer new_char_array wrap_sint64
    simp only []
    have hw : (file_size + 1 + 9223372036854775808) % 18446744073709551616
        - 9223372036854775808 = file_size + 1 := by omega
    rw [hw, if_neg (by omega), if_pos hc]
  refine ⟨?_, ?_, fun len h => ⟨(hlen len h).1, (hlen len h).2.1⟩, ?_⟩
  · constructor
    · intro hs
      unfold index_safe at hs
      split at hs
      · cases hs
      · rename_i len hl
        obtain ⟨hl1, hl2, hl3⟩ := hlen len hl
        unfold in_bounds readme_buffer at hs
        simp only [Bool.and_eq_true, decide_eq_true_eq] at hs
        have hfs : (file_size + 1).toNat = len := by omega
        unfold SINT64_MAX
        rw [hfs]
        exact ⟨hs.1.1.1, hl3, hl2⟩
    · rintro ⟨h0, h1, hc⟩
      unfold SINT64_MAX at h1
      have hl := hsome h0 h1 hc
      unfold index_safe
      rw [hl]
      unfold in_bounds readme_buffer
      simp only [Bool.and_eq_true, decide_eq_true_eq]
      omega
  · intro h0 h1 hc
    unfold SINT64_MAX at h1
    refine ⟨hsome h0 h1 hc, ?_, rfl, h0, le_refl _⟩
    unfold in_bounds readme_buffer
    simp only [Bool.and_eq_true, decide_eq_true_eq]
    omega
  · intro hneg len _
    unfold readme_buffer in_bounds
    simp only [Bool.and_eq_false_iff, decide_eq_false_iff_not, not_le]
    exact Or.inl hneg

/-- Claim C8, amended, at a readme of 12 bytes and the allocator of
`world_ok`. -/
theorem C8_readme_buffer_index_safety_witness :
    SINT64_MIN ≤ 12 ∧ (12 : Int) ≤ SINT64_MAX
    ∧ (readme_buffer world_ok.can_allocate 12).length = some 13
    ∧ index_safe (readme_buffer world_ok.can_allocate 12) = true :=
  ⟨by decide, by decide,
   ((C8_readme_buffer_index_safety world_ok.can_allocate 12 (by decide) (by decide)).2.1
      (by decide) (by decide) (by decide)).1,
   (C8_readme_buffer_index_safety world_ok.can_allocate 12 (by decide) (by decide)).1.mpr
      ⟨by decide, by decide, by decide⟩⟩

/-- Claim C9: the structure passed to the second `export_mdle` call, which
writes `example_function.mdle`, is a fresh `Mdle_data` in which only the
prototype name is set, to
`mdl::nvidia::sdk_examples::tutorials::example_function(color,float)`: its
defaults, thumbnail path and user files are those of a fresh structure,
whatever the first structure holds; and after the first export no call writes
to the first structure or to the containers stored in it, the only container
written to being the second structure. -/
theorem C9_second_export_is_fresh (w : World) (n : String) (d : Mdle_data)
    (h : (exported (main w))[1]? = some (n, d)) :
    n = "example_function.mdle"
    ∧ d.prototype_name
        = "mdl::nvidia::sdk_examples::tutorials::example_function(color,float)"
    ∧ d.defaults = w.fresh_Mdle_data.defaults
    ∧ d.thumbnail_path = w.fresh_Mdle_data.thumbnail_path
    ∧ d.user_files = w.fresh_Mdle_data.user_files
    ∧ ∀ o ∈ written_after_first_export (main w), o = Obj.data2 := by
  obtain ⟨h2, hw⟩ := main_second_export w (SecondExport w) (fun _ x => x)
  rcases h2 with h0 | h1
  · rw [h0] at h
    cases h
  · rw [h1] at h
    cases h
    refine ⟨rfl, rfl, rfl, rfl, rfl, ?_⟩
    rcases hw with hw | hw
    · rw [hw]
      decide
    · rw [hw]
      decide

/-- Claim C9 at the environment `world_ok`, whose fresh structure is empty. -/
theorem C9_second_export_is_fresh_witness :
    (exported (main world_ok))[1]?
        = some ("example_function.mdle",
            ⟨"mdl::nvidia::sdk_examples::tutorials::example_function(color,float)",
              none, "", []⟩)
    ∧ (∀ o ∈ written_after_first_export (main world_ok), o = Obj.data2) :=
  ⟨by decide,
   (C9_second_export_is_fresh world_ok "example_function.mdle"
      ⟨"mdl::nvidia::sdk_examples::tutorials::example_function(color,float)",
        none, "", []⟩ (by decide)).2.2.2.2.2⟩

/-- Claim C10: the file name passed to `get_user_file` is `readme.txt`, the
target path of the one user file stored in the structure of the first export,
and the archive path passed to `get_user_file` is the path passed to the first
`validate_mdle`, to the first `load_module` on an archive and to
`mdle_to_db_name`. -/
theorem C10_user_file_read_back (w : World) (p f : String)
    (h : (p, f) ∈ user_file_requests (main w)) :
    f = "readme.txt"
    ∧ (∃ n d uf, (exported (main w)).head? = some (n, d)
        ∧ d.user_files = [uf] ∧ uf.target_path = f)
    ∧ (validated_paths (main w)).head? = some p
    ∧ (loaded_modules (main w))[1]? = some p
    ∧ db_name_paths (main w) = [p] := by
  rcases main_user_file_request w (UserFileRequest w) (fun _ x => x) with h0 | h1
  · rw [h0] at h
    cases h
  · obtain ⟨hu, he, hv, hl, hd⟩ := h1
    rw [hu] at h
    simp only [List.mem_singleton, Prod.mk.injEq] at h
    obtain ⟨hp, hf⟩ := h
    subst hp
    subst hf
    exact ⟨rfl, ⟨_, _, _, he, rfl, rfl⟩, hv, hl, hd⟩

/-- Claim C10 at the environment `world_ok`: the readme is requested from the
first archive in `/tmp/work`. -/
theorem C10_user_file_read_back_witness :
    ("/tmp/work/example_material_blue.mdle", "readme.txt")
        ∈ user_file_requests (main world_ok)
    ∧ db_name_paths (main world_ok) = ["/tmp/work/example_material_blue.mdle"] :=
  ⟨by decide,
   (C10_user_file_read_back world_ok "/tmp/work/example_material_blue.mdle"
      "readme.txt" (by decide)).2.2.2.2⟩


end ExampleMdle
